import Mathlib

/-!
Verification of the `amodevices` laboratory device-driver collection.

Shallow embedding of the Python drivers in `src/amodevices/`:
pure functions become Lean functions over `ℚ` (machine floats are modelled
as exact rationals, with `Option ℚ` standing for possibly-NaN cached cells),
stateful drivers become explicit state-passing functions, fallible code
returns `Except PyErr`, and the hardware transports are modelled as
explicit environment records supplying the stubbed transport responses.
-/

set_option maxRecDepth 4000

namespace AmoDevices

/-- Python-level exceptions relevant to these drivers. `deviceError` models
`amodevices.dev_exceptions.DeviceError`; the remaining constructors model the
built-in Python exceptions the drivers can leak. -/
inductive PyErr where
  | deviceError (msg : String)
  | typeError
  | valueError
  | keyError
  | unicodeDecodeError
  | unicodeEncodeError
  deriving DecidableEq, Repr

instance {ε α : Type} [DecidableEq ε] [DecidableEq α] : DecidableEq (Except ε α)
  | Except.error e, Except.error f =>
    if h : e = f then isTrue (by rw [h]) else isFalse (by intro hc; cases hc; exact h rfl)
  | Except.error _, Except.ok _ => isFalse (by intro hc; cases hc)
  | Except.ok _, Except.error _ => isFalse (by intro hc; cases hc)
  | Except.ok a, Except.ok b =>
    if h : a = b then isTrue (by rw [h]) else isFalse (by intro hc; cases hc; exact h rfl)

/-- Model of evaluating `DeviceError(arg1, arg2, ...)` with positional arguments
`posArgs`. `DeviceError.__init__(self, value, **kwds)` (dev_exceptions.py) accepts
exactly one positional argument besides `self`, so calling the constructor with any
other number of positional arguments raises a Python `TypeError` instead of
producing the exception object. -/
def mkDeviceError (posArgs : List String) : PyErr :=
  if posArgs.length = 1 then PyErr.deviceError (posArgs.headD "") else PyErr.typeError

/-- Whitespace characters stripped by Python `float(str)` before parsing. -/
def isPySpace (c : Char) : Bool :=
  c = ' ' || c = '\t' || c = '\n' || c = '\r' || c = '\x0b' || c = '\x0c'

/-- Strip leading and trailing Python whitespace from a character list. -/
def stripPySpace (cs : List Char) : List Char :=
  ((cs.dropWhile isPySpace).reverse.dropWhile isPySpace).reverse

/-- Numeric value of a decimal digit character. -/
def digitVal (c : Char) : ℕ := c.toNat - '0'.toNat

/-- Value of a digit string read as a natural number in base 10. -/
def digitsToNat (ds : List Char) : ℕ :=
  ds.foldl (fun acc c => 10 * acc + digitVal c) 0

/-- Powers of ten in `ℚ`, written out so that kernel reduction works on them. -/
def pow10 : ℕ → ℚ
  | 0 => 1
  | n + 1 => 10 * pow10 n

/-- Value of a digit string read as the fractional part after a decimal point. -/
def fracVal (ds : List Char) : ℚ :=
  (digitsToNat ds : ℚ) / pow10 ds.length

/-- Split off a maximal run of leading decimal digits. -/
def spanDigits (cs : List Char) : List Char × List Char :=
  (cs.takeWhile Char.isDigit, cs.dropWhile Char.isDigit)

/-- Parse the mantissa part of a decimal literal: `digits`, `digits.digits`,
`digits.` or `.digits` (at least one digit overall). -/
def parseMantissa (cs : List Char) : Option (ℚ × List Char) :=
  let ip := (spanDigits cs).1
  let rest := (spanDigits cs).2
  match rest with
  | '.' :: rest2 =>
    let fp := (spanDigits rest2).1
    let rest3 := (spanDigits rest2).2
    if ip.isEmpty && fp.isEmpty then none
    else some ((digitsToNat ip : ℚ) + fracVal fp, rest3)
  | _ => if ip.isEmpty then none else some ((digitsToNat ip : ℚ), rest)

/-- Parse an optional exponent part `e±digits`/`E±digits`. A bare or malformed
exponent marker makes the whole literal invalid, as in Python. -/
def parseExponent (cs : List Char) : Option (ℤ × List Char) :=
  match cs with
  | 'e' :: rest | 'E' :: rest =>
    (match rest with
     | '+' :: rest2 =>
       if ((spanDigits rest2).1).isEmpty then none
       else some ((digitsToNat (spanDigits rest2).1 : ℤ), (spanDigits rest2).2)
     | '-' :: rest2 =>
       if ((spanDigits rest2).1).isEmpty then none
       else some (-(digitsToNat (spanDigits rest2).1 : ℤ), (spanDigits rest2).2)
     | _ =>
       if ((spanDigits rest).1).isEmpty then none
       else some ((digitsToNat (spanDigits rest).1 : ℤ), (spanDigits rest).2))
  | _ => some (0, cs)

/-- Model of Python `float(value)` on the decimal string literals produced by the
serial protocols in this repository (optional surrounding whitespace, optional
sign, decimal mantissa, optional scientific exponent), returning the exact
rational value, or `none` where `float()` raises `ValueError`. -/
def pyFloatOfString (s : String) : Option ℚ :=
  let cs := stripPySpace s.toList
  let sgn : ℚ := match cs with
    | '-' :: _ => -1
    | _ => 1
  let cs1 : List Char := match cs with
    | '+' :: r => r
    | '-' :: r => r
    | _ => cs
  match parseMantissa cs1 with
  | none => none
  | some (m, rest) =>
    match parseExponent rest with
    | none => none
    | some (e, rest2) =>
      if rest2.isEmpty then
        some (if 0 ≤ e then sgn * m * pow10 e.toNat else sgn * m / pow10 (-e).toNat)
      else none

/-- ASCII encoding of a string: `str.encode('ASCII')` yields one byte per character
and raises `UnicodeEncodeError` on any character above 127. -/
def encodeASCII (s : String) : Option (List ℕ) :=
  if s.data.all (fun c => c.toNat < 128) then some (s.data.map Char.toNat) else none

/-- ASCII decoding of a byte list, `bytes.decode('ASCII')`: fails on any byte above 127. -/
def decodeASCII (bs : List ℕ) : Option String :=
  if bs.all (fun b => b < 128) then some ⟨bs.map Char.ofNat⟩ else none

/-- Byte representation of an ASCII string, used to build stubbed transport responses. -/
def strBytes (s : String) : List ℕ := s.data.map Char.toNat

/-- Python `str.startswith(prefix)`. -/
def pyStartswith (s pre : String) : Bool := pre.data.isPrefixOf s.data

/-- Python string slice `s[n:]` (character based). -/
def pySliceFrom (s : String) (n : ℕ) : String := ⟨s.data.drop n⟩

/-! ### `dev_generic.Device` (dev_generic.py) -/

/-- Stubbed serial transport: for a transmitted byte frame, the number of bytes the
`ser.write` call reports as written. -/
structure SerialEnv where
  reportWritten : List ℕ → ℕ

/-- Model of `Device.serial_write(command, encoding='ASCII', eol)` from dev_generic.py:
appends the end-of-line terminator, encodes, writes, and raises `DeviceError`
when the reported number of written bytes differs from the length of the
terminated command string. Returns the result together with the transcript of
byte frames passed to `ser.write`. -/
def serial_write (env : SerialEnv) (deviceName command eol : String) :
    Except PyErr Unit × List (List ℕ) :=
  let query := command ++ eol
  match encodeASCII query with
  | none => (Except.error PyErr.unicodeEncodeError, [])
  | some frame =>
    if env.reportWritten frame ≠ query.length then
      (Except.error (mkDeviceError [deviceName ++ ": Query failed"]), [frame])
    else (Except.ok (), [frame])

/-- Model of `Device.to_float(value)` from dev_generic.py on a response string: parses via
`float(value)`; on `ValueError` it evaluates
`DeviceError('Value ...', value)` — two positional arguments. -/
def to_float (value : String) : Except PyErr ℚ :=
  match pyFloatOfString value with
  | some v => Except.ok v
  | none =>
    Except.error
      (mkDeviceError ["Value \x27%s\x27 is not of expected type \x27float\x27.", value])

/-- Model of `Device.to_int(value)` from dev_generic.py on a response string: parses via
`float(value)`, rejects non-integral values via `float.is_integer`, and returns
`int(value_float)` (exact for integral floats). -/
def to_int (value : String) : Except PyErr ℤ :=
  let e := "Value \x27" ++ value ++ "\x27 is not of expected type \x27int\x27."
  match pyFloatOfString value with
  | none => Except.error (mkDeviceError [e])
  | some vf =>
    if vf.den = 1 then Except.ok vf.num else Except.error (mkDeviceError [e])

/-- Configuration entries of the `device` dict consulted by `Device.init_visa`. -/
structure VisaConfig where
  deviceName : String
  address : String
  timeout : Option ℚ
  visaIdn : Option String
  cmdOnInit : Option String

/-- Stubbed VISA layer: the enumerated resource list, whether `open_resource`
succeeds, the `*IDN?` response (`none` models a raised query error), whether
`visa_resource.write` succeeds, and the description of a write error. -/
structure VisaEnv where
  resources : List String
  openOk : Bool
  idn : Option String
  writeOk : Bool
  writeErrDesc : String

/-- Driver state produced by a successful `Device.init_visa`. -/
structure VisaState where
  devicePresent : Bool
  visaWarning : Bool
  timeoutApplied : Option ℚ
  writtenCmds : List String
  deriving DecidableEq, Repr

/-- Message of the `DeviceError` raised by `init_visa` when the configured VISA
resource name is absent from the enumerated resource list. -/
def visaNotFoundMsg (cfg : VisaConfig) : String :=
  "VISA error: No device with VISA resource name \x27" ++ cfg.address ++ "\x27 found!"

/-- Message of the `DeviceError` raised when opening the resource or querying
`*IDN?` fails. -/
def visaConnErrMsg : String := "VISA error: Could not connect to device!"

/-- Message of the `DeviceError` raised by `Device.visa_write` on a `VisaIOError`. -/
def visaCommErrMsg (cfg : VisaConfig) (desc : String) : String :=
  "Error in VISA communication with device \x27" ++ cfg.deviceName
    ++ "\x27 (VISA resource name " ++ cfg.address ++ "): " ++ desc

/-- Model of `Device.init_visa` from dev_generic.py: enumerate resources, fail with a
not-found `DeviceError` when the configured address is absent; open the resource
and query `*IDN?` (any failure raises a could-not-connect `DeviceError`); apply
the configured timeout; compare the received IDN against a configured expected
IDN, only logging a warning and setting `visa_warning` on mismatch; send the
configured initialization command through `visa_write`; mark the device present. -/
def init_visa (env : VisaEnv) (cfg : VisaConfig) : Except PyErr VisaState :=
  if cfg.address ∈ env.resources then
    match env.openOk, env.idn with
    | true, some rcvdIdn =>
      let warning : Bool :=
        match cfg.visaIdn with
        | some expected => rcvdIdn ≠ expected
        | none => false
      match cfg.cmdOnInit with
      | some cmd =>
        if env.writeOk then Except.ok ⟨true, warning, cfg.timeout, [cmd]⟩
        else
          Except.error
            (mkDeviceError [visaCommErrMsg cfg env.writeErrDesc])
      | none => Except.ok ⟨true, warning, cfg.timeout, []⟩
    | _, _ => Except.error (mkDeviceError [visaConnErrMsg])
  else Except.error (mkDeviceError [visaNotFoundMsg cfg])

/-! ### KJLC XCG pressure gauge (kjlc_xcg/kjlc_xcg.py) -/

/-- Stubbed serial transport of the pressure-gauge controller: reported written
byte count per frame and the byte line returned by `readline`. -/
structure KjlcEnv where
  reportWritten : List ℕ → ℕ
  responseLine : List ℕ

/-- Model of `Device.query(command)` from kjlc_xcg.py: transmit
`#<internal_address><command>\r`, check the reported written byte count against
the frame length, read a line, decode it, reject empty lines, lines starting
with the error sentinel `?`, and lines missing the `*<internal_address> `
acknowledgement, then return `rsp[4:]`. The transmitted frames are returned as
a transcript. -/
def kjlc_query (env : KjlcEnv) (internalAddress command : String) :
    Except PyErr String × List (List ℕ) :=
  let queryStr := "#" ++ internalAddress ++ command ++ "\r"
  match encodeASCII queryStr with
  | none => (Except.error PyErr.unicodeEncodeError, [])
  | some frame =>
    if env.reportWritten frame ≠ frame.length then
      (Except.error (mkDeviceError ["Failed to write to device"]), [frame])
    else
      match decodeASCII env.responseLine with
      | none =>
        (Except.error (mkDeviceError ["Error in decoding response received"]), [frame])
      | some rsp =>
        if rsp = "" then
          (Except.error (mkDeviceError ["No response received"]), [frame])
        else if pyStartswith rsp "?" then
          (Except.error
            (mkDeviceError ["Received an error response: \x27" ++ rsp ++ "\x27"]), [frame])
        else if ¬ pyStartswith rsp ("*" ++ internalAddress ++ " ") then
          (Except.error
            (mkDeviceError
              ["Didn\x27t receive correct acknowledgement (response received: \x27"
                ++ rsp ++ "\x27)"]), [frame])
        else (Except.ok (pySliceFrom rsp 4), [frame])

/-- Model of `Device.read_pressure()` from kjlc_xcg.py: `float(self.query("RD"))`; a
`float()` parse failure raises an uncaught Python `ValueError`. -/
def kjlc_read_pressure (env : KjlcEnv) (internalAddress : String) :
    Except PyErr ℚ × List (List ℕ) :=
  match kjlc_query env internalAddress "RD" with
  | (Except.error e, tr) => (Except.error e, tr)
  | (Except.ok rsp, tr) =>
    match pyFloatOfString rsp with
    | some q => (Except.ok q, tr)
    | none => (Except.error PyErr.valueError, tr)

/-! ### High-voltage supply controller (hvs_controller/hvs_controller.py) -/

/-- Supported high-voltage supply models: `"Matsusada KA-10P"` (voltage and
current monitor) or `"Matsusada J4-5P"`/`"Matsusada J4-5N"` (voltage monitor
only). -/
inductive HvsModel where
  | ka10p
  | j45
  deriving DecidableEq, Repr

/-- One entry of `device['channels']`: the channel name and supply model. -/
structure HvsChannel where
  chanName : String
  model : HvsModel
  deriving DecidableEq, Repr

/-- State of an `hvsController` instance. Cached readings are `Option ℚ` with
`none` modelling `np.nan`; `acquisitions` counts the physical `ReadAnalogF64`
calls issued so far (the index into the stubbed acquisition stream). -/
structure HvsState where
  channels : List HvsChannel
  names : List String
  voltages : List (String × Option ℚ)
  currents : List (String × Option ℚ)
  writeVoltages : List (String × ℚ)
  lastReadingTime : Option ℚ
  connected : Bool
  acquisitions : ℕ

/-- Outcome of one stubbed DAQ acquisition: a raised
`DevCannotBeAccessedError`, a raised `DAQError`, or a reported sample count
together with the per-channel averaged monitor voltages. -/
inductive DaqRead where
  | devCannotBeAccessed
  | daqError
  | samples (sampsRead : ℤ) (values : ℕ → ℚ)

/-- Stubbed DAQ hardware: the outcome of the k-th physical acquisition. -/
structure HvsEnv where
  measure : ℕ → DaqRead

/-- The `self._cache_interval` of `hvsController` (0.5 s). -/
def hvsCacheInterval : ℚ := 1/2

/-- Default `n_samples` of `hvsController._measure_voltage`. -/
def hvsNSamples : ℕ := 64

/-- Python `dict` assignment `d[k] = v` on an ordered association list: replace
in place when the key exists (insertion order kept), append otherwise. -/
def dictSet {α : Type} (d : List (String × α)) (k : String) (v : α) :
    List (String × α) :=
  if (d.lookup k).isSome then d.map (fun p => if p.1 = k then (k, v) else p)
  else d ++ [(k, v)]

/-- Python `dict` read `d[k]`: `KeyError` when absent. -/
def dictGet {α : Type} (d : List (String × α)) (k : String) : Except PyErr α :=
  match d.lookup k with
  | some v => Except.ok v
  | none => Except.error PyErr.keyError

/-- Model of `hvsController._measure_voltage` (default `n_samples=64`): records
`self._last_reading_time = time.time()` *before* the `ReadAnalogF64` call, then
performs the acquisition; DAQ exceptions become `DeviceError`s (a
`DevCannotBeAccessedError` also clears `self._connected`), and a reported
sample count different from `n_samples` raises
`DeviceError("Requested and read samples mismatch!")`. -/
def measure_voltage (env : HvsEnv) (now : ℚ) (s : HvsState) :
    Except PyErr (ℕ → ℚ) × HvsState :=
  let s1 : HvsState :=
    {s with lastReadingTime := some now, acquisitions := s.acquisitions + 1}
  match env.measure s.acquisitions with
  | DaqRead.devCannotBeAccessed =>
    (Except.error (mkDeviceError ["Connection Error: device cannot be accessed"]),
      {s1 with connected := false})
  | DaqRead.daqError =>
    (Except.error (mkDeviceError ["Received NI Card Error"]), s1)
  | DaqRead.samples sampsRead values =>
    if sampsRead ≠ (hvsNSamples : ℤ) then
      (Except.error (mkDeviceError ["Requested and read samples mismatch!"]), s1)
    else (Except.ok values, s1)

/-- The fan-out loop of `hvsController.update_readings`: walk the configured
channels, consuming two monitor values (voltage scaled by 1000, current scaled
by 0.1) for a KA-10P and one (voltage scaled by 1000) for a J4-5, writing the
scaled values into the voltage/current caches. -/
def applyReadings :
    List HvsChannel → (ℕ → ℚ) → ℕ →
    List (String × Option ℚ) × List (String × Option ℚ) →
    List (String × Option ℚ) × List (String × Option ℚ)
  | [], _, _, maps => maps
  | ch :: rest, values, i, (volts, currs) =>
    match ch.model with
    | HvsModel.ka10p =>
      applyReadings rest values (i + 2)
        (dictSet volts ch.chanName (some (values i * 1000)),
          dictSet currs ch.chanName (some (values (i + 1) * (1/10))))
    | HvsModel.j45 =>
      applyReadings rest values (i + 1)
        (dictSet volts ch.chanName (some (values i * 1000)), currs)

/-- Model of `hvsController.update_readings`: measure, then fan the batched result out to
every channel's cache entry. -/
def update_readings (env : HvsEnv) (now : ℚ) (s : HvsState) :
    Except PyErr Unit × HvsState :=
  match measure_voltage env now s with
  | (Except.error e, s1) => (Except.error e, s1)
  | (Except.ok values, s1) =>
    let maps := applyReadings s1.channels values 0 (s1.voltages, s1.currents)
    (Except.ok (), {s1 with voltages := maps.1, currents := maps.2})

/-- The staleness test of `hvsController.read_voltage`/`read_current`:
no reading ever taken, or the last reading older than `cache_interval`. -/
def hvsStale (s : HvsState) (now : ℚ) : Bool :=
  match s.lastReadingTime with
  | none => true
  | some t => decide (now - t > hvsCacheInterval)

/-- Model of `hvsController.read_voltage(channel_name)`: refresh all channels when the
cache is stale, then return the cached voltage for the channel. -/
def read_voltage (env : HvsEnv) (now : ℚ) (s : HvsState) (channelName : String) :
    Except PyErr (Option ℚ) × HvsState :=
  if hvsStale s now then
    match update_readings env now s with
    | (Except.error e, s1) => (Except.error e, s1)
    | (Except.ok _, s1) => (dictGet s1.voltages channelName, s1)
  else (dictGet s.voltages channelName, s)

/-- Model of `hvsController.read_current(channel_name)`: refresh all channels when the
cache is stale, then return the cached current for the channel. -/
def read_current (env : HvsEnv) (now : ℚ) (s : HvsState) (channelName : String) :
    Except PyErr (Option ℚ) × HvsState :=
  if hvsStale s now then
    match update_readings env now s with
    | (Except.error e, s1) => (Except.error e, s1)
    | (Except.ok _, s1) => (dictGet s1.currents channelName, s1)
  else (dictGet s.currents channelName, s)

/-- Model of `hvsController._change_key_in_place(key, new_key, dic)`: rebuild the dict
with the entry under `key` renamed to `new_key`, keeping the ordering of keys
and values the same. -/
def change_key_in_place {α : Type} (key newKey : String) (d : List (String × α)) :
    List (String × α) :=
  d.map (fun p => if p.1 = key then (newKey, p.2) else p)

/-- Model of `hvsController.set_name(channel_name, new_name)`: reject duplicate names
with a `DeviceError`; otherwise rename the channel in the configured channel
list, in `self._names` (in place via `list.index`, which raises `ValueError`
for a missing name), and in the voltage/write-voltage/current caches (the
current cache only when it has an entry for the channel). -/
def set_name (s : HvsState) (channelName newName : String) : Except PyErr HvsState :=
  if newName ∈ s.names then
    Except.error
      (mkDeviceError [newName ++ " is an invalid name, cannot duplicate names!"])
  else
    match s.names.indexOf? channelName with
    | none => Except.error PyErr.valueError
    | some i =>
      Except.ok
        { s with
          channels :=
            s.channels.map
              (fun ch =>
                if ch.chanName = channelName then {ch with chanName := newName} else ch),
          names := s.names.set i newName,
          voltages := change_key_in_place channelName newName s.voltages,
          writeVoltages := change_key_in_place channelName newName s.writeVoltages,
          currents :=
            if (s.currents.lookup channelName).isSome then
              change_key_in_place channelName newName s.currents
            else s.currents }

/-! ### Thorlabs KPA101 beam position aligner (thorlabs_kpa101/thorlabs_kpa101.py) -/

/-- State of a `ThorlabsKPA101` instance: connection flag, the five cached
readings (`none` modelling the `np.nan` initial value), the timestamp of the
last physical reading, and the number of physical `get_readings()` calls made
so far. -/
structure KpaState where
  connected : Bool
  xdiff : Option ℚ
  ydiff : Option ℚ
  sumSignal : Option ℚ
  xpos : Option ℚ
  ypos : Option ℚ
  lastReadingTime : Option ℚ
  reads : ℕ

/-- Stubbed Kinesis quad detector: whether opening the device succeeds, and the
readings returned by the k-th physical `get_readings()` call
(xdiff, ydiff, sum, xpos, ypos). -/
structure KpaEnv where
  connectOk : Bool
  readings : ℕ → ℚ × ℚ × ℚ × ℚ × ℚ

/-- The `self._cache_interval` of `ThorlabsKPA101` (0.1 s). -/
def kpaCacheInterval : ℚ := 1/10

/-- The staleness test of `ThorlabsKPA101.get_readings_cached`. -/
def kpaStale (s : KpaState) (now : ℚ) : Bool :=
  match s.lastReadingTime with
  | none => true
  | some t => decide (now - t > kpaCacheInterval)

/-- Model of `ThorlabsKPA101.check_connection`: raise a `DeviceError` when the connection
is not open. -/
def kpa_check_connection (s : KpaState) : Except PyErr Unit :=
  if ¬ s.connected then
    Except.error
      (mkDeviceError ["Thorlabs KPA101: Connection to device with serial number not open"])
  else Except.ok ()

/-- Model of `ThorlabsKPA101.get_readings_cached`: when no reading was ever taken or the
last one is older than `cache_interval`, check the connection and perform a
physical `get_readings()` call, refreshing all five cached values and the
timestamp; otherwise do nothing. -/
def get_readings_cached (env : KpaEnv) (now : ℚ) (s : KpaState) :
    Except PyErr KpaState :=
  if kpaStale s now then
    match kpa_check_connection s with
    | Except.error e => Except.error e
    | Except.ok _ =>
      let r := env.readings s.reads
      Except.ok
        { s with
          xdiff := some r.1, ydiff := some r.2.1, sumSignal := some r.2.2.1,
          xpos := some r.2.2.2.1, ypos := some r.2.2.2.2,
          lastReadingTime := some now, reads := s.reads + 1 }
  else Except.ok s

/-- The `ThorlabsKPA101.xdiff` property: refresh through the cache, then return
the cached x-difference signal. -/
def kpa_xdiff (env : KpaEnv) (now : ℚ) (s : KpaState) :
    Except PyErr (Option ℚ × KpaState) :=
  match get_readings_cached env now s with
  | Except.error e => Except.error e
  | Except.ok s1 => Except.ok (s1.xdiff, s1)

/-- The `ThorlabsKPA101.ydiff` property. -/
def kpa_ydiff (env : KpaEnv) (now : ℚ) (s : KpaState) :
    Except PyErr (Option ℚ × KpaState) :=
  match get_readings_cached env now s with
  | Except.error e => Except.error e
  | Except.ok s1 => Except.ok (s1.ydiff, s1)

/-- The `ThorlabsKPA101.sum` property. -/
def kpa_sum (env : KpaEnv) (now : ℚ) (s : KpaState) :
    Except PyErr (Option ℚ × KpaState) :=
  match get_readings_cached env now s with
  | Except.error e => Except.error e
  | Except.ok s1 => Except.ok (s1.sumSignal, s1)

/-- The `ThorlabsKPA101.xout` property. -/
def kpa_xout (env : KpaEnv) (now : ℚ) (s : KpaState) :
    Except PyErr (Option ℚ × KpaState) :=
  match get_readings_cached env now s with
  | Except.error e => Except.error e
  | Except.ok s1 => Except.ok (s1.xpos, s1)

/-- The `ThorlabsKPA101.yout` property. -/
def kpa_yout (env : KpaEnv) (now : ℚ) (s : KpaState) :
    Except PyErr (Option ℚ × KpaState) :=
  match get_readings_cached env now s with
  | Except.error e => Except.error e
  | Except.ok s1 => Except.ok (s1.ypos, s1)

/-- State of a `ThorlabsKPA101` instance right after `__init__`. -/
def kpaInit : KpaState :=
  ⟨false, none, none, none, none, none, none, 0⟩

/-- Model of `ThorlabsKPA101.connect`: open the Kinesis quad detector (raising a
`DeviceError` on failure), set `device_connected`, then call
`get_readings_cached()`. -/
def kpa_connect (env : KpaEnv) (now : ℚ) (s : KpaState) : Except PyErr KpaState :=
  if ¬ env.connectOk then
    Except.error
      (mkDeviceError
        ["Thorlabs KPA101: Could not connect to device with serial number"])
  else get_readings_cached env now {s with connected := true}

/-- Model of `ThorlabsKPA101.close`: close the detector and clear `device_connected`;
the cached readings and their timestamp are left in place. -/
def kpa_close (s : KpaState) : KpaState :=
  if s.connected then {s with connected := false} else s

/-! ### Thorlabs K10CR1 rotation mount (thorlabs_k10cr1/thorlabs_k10cr1.py) -/

/-- The `self.open` flag of a `ThorlabsK10CR1` instance. -/
structure K10State where
  isOpen : Bool

/-- Model of `ThorlabsK10CR1.check_connection`: raise a `DeviceError` when the connection
is not open. -/
def k10_check_connection (s : K10State) : Except PyErr Unit :=
  if ¬ s.isOpen then
    Except.error
      (mkDeviceError ["Thorlabs Kinesis: Connection to device with serial number not open"])
  else Except.ok ()

/-- Model of `ThorlabsK10CR1.get_position`: `check_connection()` then
`ISC_GetPosition` (the stubbed device position `pos`). -/
def k10_get_position (pos : ℤ) (s : K10State) : Except PyErr ℤ :=
  match k10_check_connection s with
  | Except.error e => Except.error e
  | Except.ok _ => Except.ok pos

/-! ### Thorlabs MDT693B piezo controller (thorlabs_mdt693b/thorlabs_mdt693b.py) -/

/-- Stubbed serial transport of the piezo controller: reported written byte
count per frame, the byte line returned by `read_until(b'\r')`, and the decoded
acknowledgement character returned by `read(1).decode()`. -/
structure MdtEnv where
  reportWritten : List ℕ → ℕ
  responseLine : List ℕ
  ack : String

/-- Stand-in for Python's `str(float)` formatting used when interpolating a
voltage into an MDT693B command string; the claims only inspect whether a
command was transmitted, never the formatted digits. -/
def pyFloatStr (q : ℚ) : String := toString q.num ++ "/" ++ toString q.den

/-- Model of `ThorlabsMDT693B.write(command)`: write `command + '\n'` encoded as ASCII and
raise a `DeviceError` when the reported written byte count differs from the
length of the terminated command. Returns the transcript of transmitted frames. -/
def mdt_write (env : MdtEnv) (deviceName command : String) :
    Except PyErr Unit × List (List ℕ) :=
  let query := command ++ "\n"
  match encodeASCII query with
  | none => (Except.error PyErr.unicodeEncodeError, [])
  | some frame =>
    if env.reportWritten frame ≠ query.length then
      (Except.error (mkDeviceError [deviceName ++ ": Query failed"]), [frame])
    else (Except.ok (), [frame])

/-- Model of `ThorlabsMDT693B.send_command(command)`: write, then check the single-character
`>` acknowledgement. -/
def mdt_send_command (env : MdtEnv) (deviceName command : String) :
    Except PyErr Unit × List (List ℕ) :=
  match mdt_write env deviceName command with
  | (Except.error e, tr) => (Except.error e, tr)
  | (Except.ok _, tr) =>
    if env.ack ≠ ">" then
      (Except.error
        (mkDeviceError [deviceName ++ ": Device failed to acknowledge command"]), tr)
    else (Except.ok (), tr)

/-- Model of `ThorlabsMDT693B.query(command)`: write, read a byte line up to `\r`, check
the `>` acknowledgement, and return the right-stripped response bytes. -/
def mdt_query (env : MdtEnv) (deviceName command : String) :
    Except PyErr (List ℕ) × List (List ℕ) :=
  match mdt_write env deviceName command with
  | (Except.error e, tr) => (Except.error e, tr)
  | (Except.ok _, tr) =>
    if env.ack ≠ ">" then
      (Except.error
        (mkDeviceError [deviceName ++ ": Device failed to acknowledge command"]), tr)
    else
      (Except.ok
        ((env.responseLine.reverse.dropWhile
          (fun b => decide (b = 13) || decide (b = 10) || decide (b = 32)
            || decide (b = 9))).reverse), tr)

/-- Model of `ThorlabsMDT693B._check_axis(axis)`: raise a `DeviceError` for any axis
outside `['x', 'y', 'z']`. -/
def mdt_check_axis (deviceName axis : String) : Except PyErr Unit :=
  if axis ∉ ["x", "y", "z"] then
    Except.error
      (mkDeviceError [deviceName ++ ": Unknown axis \x27" ++ axis ++ "\x27"])
  else Except.ok ()

/-- Model of `ThorlabsMDT693B.read_voltage(axis)`: check the axis, query
`<axis>voltage?`, and parse `float(response[1:-1])`, converting a parse failure
into a `DeviceError`. -/
def mdt_read_voltage (env : MdtEnv) (deviceName axis : String) :
    Except PyErr ℚ × List (List ℕ) :=
  match mdt_check_axis deviceName axis with
  | Except.error e => (Except.error e, [])
  | Except.ok _ =>
    match mdt_query env deviceName (axis ++ "voltage?") with
    | (Except.error e, tr) => (Except.error e, tr)
    | (Except.ok rsp, tr) =>
      match decodeASCII ((rsp.drop 1).dropLast) with
      | none =>
        (Except.error
          (mkDeviceError [deviceName ++ ": Could not convert response to float"]), tr)
      | some payload =>
        match pyFloatOfString payload with
        | some v => (Except.ok v, tr)
        | none =>
          (Except.error
            (mkDeviceError [deviceName ++ ": Could not convert response to float"]), tr)

/-- Model of `ThorlabsMDT693B.set_voltage(axis, voltage)`: check the axis, reject
voltages below 0 V with a `DeviceError`, then transmit
`<axis>voltage=<voltage>` via `send_command`. -/
def mdt_set_voltage (env : MdtEnv) (deviceName axis : String) (voltage : ℚ) :
    Except PyErr Unit × List (List ℕ) :=
  match mdt_check_axis deviceName axis with
  | Except.error e => (Except.error e, [])
  | Except.ok _ =>
    if voltage < 0 then
      (Except.error
        (mkDeviceError [deviceName ++ ": Voltage must not be below 0.00 V"]), [])
    else mdt_send_command env deviceName (axis ++ "voltage=" ++ pyFloatStr voltage)

/-! ### K10CR1 device-unit conversion (thorlabs_k10cr1/thorlabs_k10cr1.py)

The conversion functions `convertmmtoDevUnits`/`convertDevUnitsTomm` are the
superseded revision kept in the source file (lines 370–387); the active file
still defines their constants `def_device_units` and `POSITION_PRECISION`. -/

/-- Round half to even on rationals, modelling `np.around(x, 0)` (NumPy rounds
halves to the nearest even integer). -/
def roundHalfEven (q : ℚ) : ℤ :=
  let f := ⌊q⌋
  let r := q - f
  if r < 1/2 then f
  else if 1/2 < r then f + 1
  else if 2 ∣ f then f else f + 1

/-- Model of `np.around(q, d)`: round to `d` decimal places, halves to even. -/
def npAround (q : ℚ) (d : ℕ) : ℚ :=
  (roundHalfEven (q * pow10 d) : ℚ) / pow10 d

/-- The constant `def_device_units['Z8xx']['Position'] = 34554.96` device units per mm. -/
def defDeviceUnitsPosition : ℚ := 3455496/100

/-- The constant `ThorlabsK10CR1.POSITION_PRECISION = 1e-5`. -/
def POSITION_PRECISION : ℚ := 1/100000

/-- The constant `positionSigDigits = int(-np.log10(POSITION_PRECISION)) = 5`. -/
def positionSigDigits : ℕ := 5

/-- Model of `convertmmtoDevUnits(position_mm)`:
`int(np.around(position_mm * device_units['Position'], 0))`. -/
def convertmmtoDevUnits (position_mm : ℚ) : ℤ :=
  roundHalfEven (position_mm * defDeviceUnitsPosition)

/-- Model of `convertDevUnitsTomm(position)`:
`np.around(position / device_units['Position'], positionSigDigits)`. -/
def convertDevUnitsTomm (position : ℤ) : ℚ :=
  npAround ((position : ℚ) / defDeviceUnitsPosition) positionSigDigits

/-! ### Concrete fixtures used by the claim theorems and witnesses -/

/-- Pressure-gauge transport stub answering `*1 1.23E-6\r` with a fully
successful write. -/
def kjlcEnvOk : KjlcEnv := ⟨fun frame => frame.length, strBytes "*1 1.23E-6\r"⟩

/-- Pressure-gauge transport stub answering the error response `?1\r`. -/
def kjlcEnvErr : KjlcEnv := ⟨fun frame => frame.length, strBytes "?1\r"⟩

/-- A connected single-channel (KA-10P) controller state with a cached reading
taken at time 0. -/
def hvsStateC : HvsState :=
  ⟨[⟨"hv1", HvsModel.ka10p⟩], ["hv1"], [("hv1", some 100)], [("hv1", some 1)],
    [("hv1", 0)], some 0, true, 0⟩

/-- DAQ stub whose acquisitions always report 63 of the requested 64 samples. -/
def hvsEnvShort : HvsEnv := ⟨fun _ => DaqRead.samples 63 (fun _ => 0)⟩

/-- DAQ stub delivering acquisition `k` with per-channel value `k + 1` and the
correct sample count. -/
def hvsEnvSeq : HvsEnv := ⟨fun k => DaqRead.samples 64 (fun _ => (k : ℚ) + 1)⟩

/-- A freshly constructed single-channel controller state (no reading yet). -/
def hvsStateFresh : HvsState :=
  ⟨[⟨"hv1", HvsModel.ka10p⟩], ["hv1"], [("hv1", none)], [("hv1", none)],
    [("hv1", 0)], none, true, 0⟩

/-- Quad-detector stub delivering reading `k` as `(k+1, 2, 3, 4, 5)`. -/
def kpaEnvSeq : KpaEnv := ⟨true, fun k => ((k : ℚ) + 1, 2, 3, 4, 5)⟩

/-- The KPA101 state reached from `kpaInit` by `connect` at time 0 against
`kpaEnvSeq`. -/
def kpaStateConnected : KpaState :=
  ⟨true, some 1, some 2, some 3, some 4, some 5, some 0, 1⟩

/-- A connected two-channel controller state, used to exercise the
duplicate-name rejection of `set_name`. -/
def hvsStateC2 : HvsState :=
  ⟨[⟨"hv1", HvsModel.ka10p⟩, ⟨"hv2", HvsModel.j45⟩], ["hv1", "hv2"],
    [("hv1", some 100), ("hv2", some 200)], [("hv1", some 1)],
    [("hv1", 0), ("hv2", 0)], some 0, true, 0⟩

/-- A VISA environment listing one resource, with a working open/IDN/write path. -/
def visaEnvW : VisaEnv := ⟨["USB0::INSTR"], true, some "ACME,Model1", true, ""⟩

/-- A VISA device configuration expecting a different IDN than the instrument
reports, with a timeout and an initialization command configured. -/
def visaCfgW : VisaConfig :=
  ⟨"Spectrum Analyzer", "USB0::INSTR", some 2, some "ACME,Model2", some "INIT"⟩

/-! ## Claim theorems -/

/-- C4: `to_int` raises the `DeviceError` fault exactly on unparsable or
non-integral values and returns the exact integer otherwise; but on an
unparsable value `to_float` evaluates `DeviceError('...', value)` with two
positional arguments, whose constructor accepts only one, so the error path
raises a Python `TypeError` instead of the documented device-error fault. -/
theorem C4_to_float_typeError_eval :
    to_float "abc" = Except.error PyErr.typeError ∧
    to_float "1.25" = Except.ok (5/4) ∧
    to_int "abc" = Except.error
      (PyErr.deviceError "Value \x27abc\x27 is not of expected type \x27int\x27.") ∧
    to_int "2.5" = Except.error
      (PyErr.deviceError "Value \x272.5\x27 is not of expected type \x27int\x27.") ∧
    to_int "-3.0" = Except.ok (-3) := by
  refine ⟨?_, ?_, ?_, ?_, ?_⟩ <;> with_unfolding_all decide

/-- C8: `serial_write` transmits exactly the ASCII encoding of the terminated
command, and raises a `DeviceError` precisely when the transport-reported
written byte count differs from the length of the terminated command (in
particular a short write fails rather than silently succeeding). -/
theorem C8_serial_write_spec (env : SerialEnv) (deviceName command eol : String)
    (hascii : (command ++ eol).data.all (fun c => c.toNat < 128) = true) :
    (serial_write env deviceName command eol).2 =
      [(command ++ eol).data.map Char.toNat] ∧
    ((∃ m, (serial_write env deviceName command eol).1 =
        Except.error (PyErr.deviceError m)) ↔
      env.reportWritten ((command ++ eol).data.map Char.toNat) ≠
        (command ++ eol).length) := by
  have henc : encodeASCII (command ++ eol) =
      some ((command ++ eol).data.map Char.toNat) := by
    unfold encodeASCII
    rw [if_pos hascii]
  simp only [serial_write, henc]
  by_cases h : env.reportWritten ((command ++ eol).data.map Char.toNat) =
      (command ++ eol).length
  · rw [if_neg (not_not_intro h)]
    simpa using h
  · rw [if_pos h]
    simpa [mkDeviceError] using h

/-- Witness for C8: a stub reporting one byte fewer than requested makes the
write fail with a `DeviceError`. -/
theorem C8_witness :
    (serial_write ⟨fun frame => frame.length - 1⟩ "Thorlabs MDT693B" "xvoltage=5" "\n").2 =
      [("xvoltage=5" ++ "\n").data.map Char.toNat] ∧
    ((∃ m, (serial_write ⟨fun frame => frame.length - 1⟩ "Thorlabs MDT693B" "xvoltage=5" "\n").1 =
        Except.error (PyErr.deviceError m)) ↔
      SerialEnv.reportWritten ⟨fun frame => frame.length - 1⟩
          (("xvoltage=5" ++ "\n").data.map Char.toNat) ≠
        ("xvoltage=5" ++ "\n").length) :=
  C8_serial_write_spec ⟨fun frame => frame.length - 1⟩ "Thorlabs MDT693B" "xvoltage=5" "\n"
    (by decide)

/-- C1 counterexample: with internal address `1` and the transport responding
`*1 1.23E-6\r`, `read_pressure()` does not return `1.23e-6`; the driver slices
a fixed four characters (`rsp[4:]`) although the `*1 ` acknowledgement prefix
of a one-character address is only three characters, so it parses `.23E-6` and
returns `2.3e-7`. -/
theorem C1_counterexample :
    (kjlc_read_pressure kjlcEnvOk "1").1 = Except.ok (23/100000000) ∧
    (kjlc_read_pressure kjlcEnvOk "1").1 ≠ Except.ok (123/100000000) := by
  have hq : kjlc_query kjlcEnvOk "1" "RD" =
      (Except.ok ".23E-6\r", [strBytes "#1RD\r"]) := by decide
  have hp : pyFloatOfString ".23E-6\r" = some (23/100000000) := by
    simp +decide [pyFloatOfString, parseMantissa, parseExponent, spanDigits,
      stripPySpace, isPySpace, digitsToNat, digitVal, fracVal, pow10]
    norm_num
  have hr : (kjlc_read_pressure kjlcEnvOk "1").1 = Except.ok (23/100000000) := by
    simp [kjlc_read_pressure, hq, hp]
  refine ⟨hr, ?_⟩
  rw [hr]
  intro hc
  simp only [Except.ok.injEq] at hc
  norm_num at hc

/-- C1 amended: the driver transmits `#1RD\r`; on the response `*1 1.23E-6\r`
`read_pressure()` strips a fixed four leading characters (the acknowledgement
prefix of a two-digit internal address) and therefore returns `2.3e-7`, the
value of `.23E-6`, instead of `1.23e-6`; on the response `?1\r` it raises the
device-error fault for an error response, as claimed. -/
theorem C1_amended :
    (kjlc_read_pressure kjlcEnvOk "1").2 = [strBytes "#1RD\r"] ∧
    (kjlc_read_pressure kjlcEnvOk "1").1 = Except.ok (23/100000000) ∧
    (kjlc_read_pressure kjlcEnvErr "1").1 =
      Except.error (PyErr.deviceError "Received an error response: \x27?1\r\x27") := by
  have hq : kjlc_query kjlcEnvOk "1" "RD" =
      (Except.ok ".23E-6\r", [strBytes "#1RD\r"]) := by decide
  have hqe : kjlc_query kjlcEnvErr "1" "RD" =
      (Except.error (PyErr.deviceError "Received an error response: \x27?1\r\x27"),
        [strBytes "#1RD\r"]) := by decide
  have hp : pyFloatOfString ".23E-6\r" = some (23/100000000) := by
    simp +decide [pyFloatOfString, parseMantissa, parseExponent, spanDigits,
      stripPySpace, isPySpace, digitsToNat, digitVal, fracVal, pow10]
    norm_num
  refine ⟨?_, ?_, ?_⟩
  · simp [kjlc_read_pressure, hq, hp]
  · simp [kjlc_read_pressure, hq, hp]
  · simp [kjlc_read_pressure, hqe]

/-- The function `String.append` acts as list append on the underlying character data. -/
theorem strData_append (s t : String) : (s ++ t).data = s.data ++ t.data := rfl

/-- A position below the length of the left list survives an append. -/
theorem lt_length_append {α : Type} {l₁ l₂ : List α} {n : ℕ} (h : n < l₁.length) :
    n < (l₁ ++ l₂).length := by
  rw [List.length_append]
  exact Nat.lt_of_lt_of_le h (Nat.le_add_right _ _)

/-- Character 12 of the not-found message is the `N` of `No device`. -/
theorem visaNotFoundMsg_elem (cfg : VisaConfig) :
    (visaNotFoundMsg cfg).data[12]? = some 'N' := by
  have h1 : (12:ℕ) < ("VISA error: No device with VISA resource name \x27").data.length := by
    decide
  rw [visaNotFoundMsg, strData_append, strData_append]
  simp only [List.append_assoc]
  rw [List.getElem?_append_left h1]
  decide

/-- Character 12 of the could-not-connect message is the `C` of `Could not`. -/
theorem visaConnErrMsg_elem : visaConnErrMsg.data[12]? = some 'C' := by decide

/-- Character 12 of the communication-error message is the `A` of `VISA`. -/
theorem visaCommErrMsg_elem (cfg : VisaConfig) (desc : String) :
    (visaCommErrMsg cfg desc).data[12]? = some 'A' := by
  have h1 : (12:ℕ) < ("Error in VISA communication with device \x27").data.length := by
    decide
  rw [visaCommErrMsg, strData_append, strData_append, strData_append, strData_append,
    strData_append]
  simp only [List.append_assoc]
  rw [List.getElem?_append_left h1]
  decide

/-- The not-found message never coincides with the could-not-connect message. -/
theorem visaNotFoundMsg_ne_connErr (cfg : VisaConfig) :
    visaConnErrMsg ≠ visaNotFoundMsg cfg := by
  intro h
  have h12 := congrArg (fun s : String => s.data[12]?) h
  simp only [visaNotFoundMsg_elem, visaConnErrMsg_elem] at h12
  exact absurd h12 (by decide)

/-- The not-found message never coincides with a communication-error message. -/
theorem visaNotFoundMsg_ne_commErr (cfg : VisaConfig) (desc : String) :
    visaCommErrMsg cfg desc ≠ visaNotFoundMsg cfg := by
  intro h
  have h12 := congrArg (fun s : String => s.data[12]?) h
  simp only [visaNotFoundMsg_elem, visaCommErrMsg_elem] at h12
  exact absurd h12 (by decide)

/-- C7: `init_visa` raises the device-not-found error exactly when the
configured VISA resource name is absent from the enumerated resource list; when
the resource is present, opening and the `*IDN?` query succeed, and the
received identity differs from the configured expected identity, `init_visa`
does not raise: it sets the warning flag, applies the configured timeout,
sends the configured initialization command, and marks the device present. -/
theorem C7_init_visa_spec (env : VisaEnv) (cfg : VisaConfig) :
    (init_visa env cfg = Except.error (PyErr.deviceError (visaNotFoundMsg cfg)) ↔
      cfg.address ∉ env.resources) ∧
    (∀ rcvd expected, cfg.address ∈ env.resources → env.openOk = true →
      env.idn = some rcvd → cfg.visaIdn = some expected → rcvd ≠ expected →
      (cfg.cmdOnInit = none ∨ env.writeOk = true) →
      init_visa env cfg = Except.ok ⟨true, true, cfg.timeout, cfg.cmdOnInit.toList⟩) := by
  constructor
  · constructor
    · intro h hmem
      rw [init_visa, if_pos hmem] at h
      cases hopen : env.openOk <;> rw [hopen] at h
      · cases hidn : env.idn <;> rw [hidn] at h <;>
          simp [mkDeviceError] at h <;>
          exact visaNotFoundMsg_ne_connErr cfg h
      · cases hidn : env.idn <;> rw [hidn] at h
        · simp [mkDeviceError] at h
          exact visaNotFoundMsg_ne_connErr cfg h
        · cases hcmd : cfg.cmdOnInit <;> rw [hcmd] at h
          · simp at h
          · cases hw : env.writeOk <;> rw [hw] at h
            · simp [mkDeviceError] at h
              exact visaNotFoundMsg_ne_commErr cfg env.writeErrDesc h
            · simp at h
    · intro hnot
      rw [init_visa, if_neg hnot]
      simp [mkDeviceError]
  · intro rcvd expected hmem hopen hidn hvidn hneq hcmd
    rw [init_visa, if_pos hmem, hopen, hidn, hvidn]
    rcases hcmd with hnone | hwrite
    · rw [hnone]
      simp [hneq, hnone]
    · cases hc : cfg.cmdOnInit
      · simp [hneq]
      · simp [hneq, hwrite]

/-- Witness for C7: an instrument reporting a mismatching IDN leaves `init_visa`
succeeding with the warning flag set, the timeout applied, and the
initialization command sent. -/
theorem C7_witness :
    init_visa visaEnvW visaCfgW =
      Except.ok ⟨true, true, visaCfgW.timeout, visaCfgW.cmdOnInit.toList⟩ :=
  (C7_init_visa_spec visaEnvW visaCfgW).2 "ACME,Model1" "ACME,Model2" (by decide)
    rfl rfl rfl (by decide) (Or.inr rfl)

/-- Half-to-even rounding moves a rational by at most one half. -/
theorem abs_roundHalfEven_sub_le (q : ℚ) : |(roundHalfEven q : ℚ) - q| ≤ 1/2 := by
  have h0 : (⌊q⌋:ℚ) ≤ q := Int.floor_le q
  have h1 : q < ⌊q⌋ + 1 := Int.lt_floor_add_one q
  simp only [roundHalfEven]
  by_cases hlt : q - ⌊q⌋ < 1/2
  · rw [if_pos hlt, abs_sub_comm, abs_of_nonneg (by linarith)]
    linarith
  · rw [if_neg hlt]
    by_cases hgt : (1:ℚ)/2 < q - ⌊q⌋
    · rw [if_pos hgt]
      have hc : ((⌊q⌋ + 1 : ℤ) : ℚ) = (⌊q⌋:ℚ) + 1 := by push_cast; ring
      rw [hc, abs_of_nonneg (by linarith)]
      linarith
    · rw [if_neg hgt]
      have heq : q - ⌊q⌋ = 1/2 := le_antisymm (not_lt.mp hgt) (not_lt.mp hlt)
      by_cases hpar : 2 ∣ ⌊q⌋
      · rw [if_pos hpar, abs_sub_comm, abs_of_nonneg (by linarith)]
        linarith
      · rw [if_neg hpar]
        have hc : ((⌊q⌋ + 1 : ℤ) : ℚ) = (⌊q⌋:ℚ) + 1 := by push_cast; ring
        rw [hc, abs_of_nonneg (by linarith)]
        linarith

/-- C6 amended: the conversion functions are pure rational functions, and for
every x in the legal 0–360 range the mm → device-units → mm round trip returns
x to within half a device step plus half the final rounding step — a bound just
under 2·POSITION_PRECISION — but not within POSITION_PRECISION itself. -/
theorem C6_roundtrip_bound (x : ℚ) (hx0 : 0 ≤ x) (hx1 : x ≤ 360) :
    |convertDevUnitsTomm (convertmmtoDevUnits x) - x| ≤
      1 / (2 * defDeviceUnitsPosition) + POSITION_PRECISION / 2 ∧
    1 / (2 * defDeviceUnitsPosition) + POSITION_PRECISION / 2 <
      2 * POSITION_PRECISION := by
  constructor
  · have hk : (0:ℚ) < defDeviceUnitsPosition := by norm_num [defDeviceUnitsPosition]
    have hp5 : pow10 5 = 100000 := by norm_num [pow10]
    set d : ℤ := convertmmtoDevUnits x with hd
    have hdev : |(d:ℚ) - x * defDeviceUnitsPosition| ≤ 1/2 := by
      rw [hd, convertmmtoDevUnits]
      exact abs_roundHalfEven_sub_le _
    have hyx : |(d:ℚ)/defDeviceUnitsPosition - x| ≤ 1/(2*defDeviceUnitsPosition) := by
      have hrw : (d:ℚ)/defDeviceUnitsPosition - x =
          ((d:ℚ) - x*defDeviceUnitsPosition)/defDeviceUnitsPosition := by
        field_simp
        ring
      rw [hrw, abs_div, abs_of_pos hk, show (1:ℚ)/(2*defDeviceUnitsPosition) =
        (1/2)/defDeviceUnitsPosition by rw [div_div]]
      exact (div_le_div_right hk).mpr hdev
    have hnp : |npAround ((d:ℚ)/defDeviceUnitsPosition) 5 -
        (d:ℚ)/defDeviceUnitsPosition| ≤ POSITION_PRECISION/2 := by
      unfold npAround
      rw [hp5]
      have h2 : |(roundHalfEven ((d:ℚ)/defDeviceUnitsPosition * 100000) : ℚ) -
          (d:ℚ)/defDeviceUnitsPosition * 100000| ≤ 1/2 :=
        abs_roundHalfEven_sub_le _
      have hrw : (roundHalfEven ((d:ℚ)/defDeviceUnitsPosition * 100000) : ℚ)/100000 -
          (d:ℚ)/defDeviceUnitsPosition =
          ((roundHalfEven ((d:ℚ)/defDeviceUnitsPosition * 100000) : ℚ) -
            (d:ℚ)/defDeviceUnitsPosition * 100000)/100000 := by
        field_simp
        ring
      rw [hrw, abs_div, abs_of_pos (by norm_num : (0:ℚ) < 100000)]
      rw [show POSITION_PRECISION/2 = (1/2)/100000 by norm_num [POSITION_PRECISION]]
      exact (div_le_div_right (by norm_num)).mpr h2
    have hsplit : convertDevUnitsTomm d - x =
        (npAround ((d:ℚ)/defDeviceUnitsPosition) 5 - (d:ℚ)/defDeviceUnitsPosition)
        + ((d:ℚ)/defDeviceUnitsPosition - x) := by
      unfold convertDevUnitsTomm positionSigDigits
      ring
    calc |convertDevUnitsTomm d - x|
        ≤ |npAround ((d:ℚ)/defDeviceUnitsPosition) 5 - (d:ℚ)/defDeviceUnitsPosition|
          + |(d:ℚ)/defDeviceUnitsPosition - x| := by
          rw [hsplit]; exact abs_add _ _
      _ ≤ 1 / (2 * defDeviceUnitsPosition) + POSITION_PRECISION / 2 := by
          linarith [hnp, hyx]
  · norm_num [defDeviceUnitsPosition, POSITION_PRECISION]

/-- Witness for C6 (amended) at x = 180 mm. -/
theorem C6_witness :
    |convertDevUnitsTomm (convertmmtoDevUnits 180) - 180| ≤
      1 / (2 * defDeviceUnitsPosition) + POSITION_PRECISION / 2 ∧
    1 / (2 * defDeviceUnitsPosition) + POSITION_PRECISION / 2 <
      2 * POSITION_PRECISION :=
  C6_roundtrip_bound 180 (by norm_num) (by norm_num)

/-- C6 counterexample: at x = 5000025/1727748 − 1e-9 mm (≈ 2.893955 mm, inside
the 0–360 range), the round trip returns 2.89394 mm, missing x by about
1.5e-5 > POSITION_PRECISION, so the round trip is not accurate to the declared
1e-5 budget. -/
theorem C6_counterexample :
    0 ≤ (5000025/1727748 - 1/1000000000 : ℚ) ∧
    (5000025/1727748 - 1/1000000000 : ℚ) ≤ 360 ∧
    ¬ |convertDevUnitsTomm (convertmmtoDevUnits (5000025/1727748 - 1/1000000000)) -
        (5000025/1727748 - 1/1000000000)| ≤ POSITION_PRECISION := by
  have e1 : convertmmtoDevUnits (5000025/1727748 - 1/1000000000 : ℚ) = 100000 := by
    norm_num [convertmmtoDevUnits, roundHalfEven, defDeviceUnitsPosition]
  have e2 : convertDevUnitsTomm 100000 = 144697/50000 := by
    norm_num [convertDevUnitsTomm, npAround, roundHalfEven, positionSigDigits,
      defDeviceUnitsPosition, pow10]
  refine ⟨by norm_num, by norm_num, ?_⟩
  rw [e1, e2]
  have e3 : (144697/50000 : ℚ) - (5000025/1727748 - 1/1000000000) < 0 := by norm_num
  rw [abs_of_neg e3]
  norm_num [POSITION_PRECISION]

/-- A cache refreshed at `t` is not stale at any `now` within the interval. -/
theorem hvsStale_eq_false {s : HvsState} {now t : ℚ}
    (h : s.lastReadingTime = some t) (hle : now - t ≤ hvsCacheInterval) :
    hvsStale s now = false := by
  unfold hvsStale
  rw [h]
  exact decide_eq_false (not_lt.mpr hle)

/-- A KPA101 cache refreshed at `t` is not stale within the interval. -/
theorem kpaStale_eq_false {s : KpaState} {now t : ℚ}
    (h : s.lastReadingTime = some t) (hle : now - t ≤ kpaCacheInterval) :
    kpaStale s now = false := by
  unfold kpaStale
  rw [h]
  exact decide_eq_false (not_lt.mpr hle)

/-- The function `update_readings` stamps the measurement time and consumes one physical
acquisition regardless of the measurement outcome. -/
theorem update_readings_stamp (env : HvsEnv) (now : ℚ) (s : HvsState) :
    (update_readings env now s).2.lastReadingTime = some now ∧
    (update_readings env now s).2.acquisitions = s.acquisitions + 1 := by
  unfold update_readings measure_voltage
  cases env.measure s.acquisitions with
  | devCannotBeAccessed => simp
  | daqError => simp
  | samples sr vals =>
    by_cases hsr : sr = (hvsNSamples : ℤ) <;> simp [hsr]

/-- C2: the cached-read contract. The supply controller caches for 0.5 s and
the KPA101 for 0.1 s; a read within the interval of the last reading returns
the cached value with no hardware access and no state change; a stale or
never-filled cache triggers a synchronous measurement stamping the cache; and
two reads within one interval of each other (the first having refreshed the
cache) return the same value for every stubbed transport, including transports
yielding different raw values on each physical query. -/
theorem C2_cached_reads :
    hvsCacheInterval = 1/2 ∧ kpaCacheInterval = 1/10 ∧
    (∀ (env : HvsEnv) (s : HvsState) (now t : ℚ) (name : String),
      s.lastReadingTime = some t → now - t ≤ hvsCacheInterval →
      read_voltage env now s name = (dictGet s.voltages name, s) ∧
      read_current env now s name = (dictGet s.currents name, s)) ∧
    (∀ (env : HvsEnv) (s : HvsState) (now : ℚ) (name : String),
      hvsStale s now = true →
      (read_voltage env now s name).2.lastReadingTime = some now ∧
      (read_voltage env now s name).2.acquisitions = s.acquisitions + 1) ∧
    (∀ (env : HvsEnv) (s s1 : HvsState) (t1 t2 : ℚ) (name : String) (v : Option ℚ),
      hvsStale s t1 = true →
      read_voltage env t1 s name = (Except.ok v, s1) →
      t2 - t1 ≤ hvsCacheInterval →
      read_voltage env t2 s1 name = (Except.ok v, s1)) ∧
    (∀ (env : HvsEnv) (s s1 : HvsState) (t1 t2 : ℚ) (name : String) (v : Option ℚ),
      hvsStale s t1 = true →
      read_current env t1 s name = (Except.ok v, s1) →
      t2 - t1 ≤ hvsCacheInterval →
      read_current env t2 s1 name = (Except.ok v, s1)) ∧
    (∀ (env : KpaEnv) (s : KpaState) (now t : ℚ),
      s.lastReadingTime = some t → now - t ≤ kpaCacheInterval →
      get_readings_cached env now s = Except.ok s ∧
      kpa_xdiff env now s = Except.ok (s.xdiff, s) ∧
      kpa_ydiff env now s = Except.ok (s.ydiff, s) ∧
      kpa_sum env now s = Except.ok (s.sumSignal, s) ∧
      kpa_xout env now s = Except.ok (s.xpos, s) ∧
      kpa_yout env now s = Except.ok (s.ypos, s)) ∧
    (∀ (env : KpaEnv) (s : KpaState) (now : ℚ),
      kpaStale s now = true → s.connected = true →
      get_readings_cached env now s = Except.ok
        { s with
          xdiff := some (env.readings s.reads).1,
          ydiff := some (env.readings s.reads).2.1,
          sumSignal := some (env.readings s.reads).2.2.1,
          xpos := some (env.readings s.reads).2.2.2.1,
          ypos := some (env.readings s.reads).2.2.2.2,
          lastReadingTime := some now, reads := s.reads + 1 }) ∧
    (∀ (env : KpaEnv) (s s1 : KpaState) (t1 t2 : ℚ) (v : Option ℚ),
      kpaStale s t1 = true →
      kpa_xdiff env t1 s = Except.ok (v, s1) →
      t2 - t1 ≤ kpaCacheInterval →
      kpa_xdiff env t2 s1 = Except.ok (v, s1)) := by
  refine ⟨rfl, rfl, ?_, ?_, ?_, ?_, ?_, ?_, ?_⟩
  · intro env s now t name h hle
    have hf := hvsStale_eq_false h hle
    unfold read_voltage read_current
    rw [hf]
    simp
  · intro env s now name hst
    have hstamp := update_readings_stamp env now s
    unfold read_voltage
    rw [if_pos hst]
    rcases hu : update_readings env now s with ⟨r, s2⟩
    rw [hu] at hstamp
    cases r <;> simpa using hstamp
  · intro env s s1 t1 t2 name v hst hread hle
    have hstamp := update_readings_stamp env t1 s
    unfold read_voltage at hread
    rw [if_pos hst] at hread
    rcases hu : update_readings env t1 s with ⟨r, s2⟩
    rw [hu] at hread hstamp
    cases r with
    | error e => simp at hread
    | ok u =>
      simp only [Prod.mk.injEq] at hread
      obtain ⟨hval, hs⟩ := hread
      rw [hs] at hstamp hval
      have hf : hvsStale s1 t2 = false := hvsStale_eq_false hstamp.1 hle
      unfold read_voltage
      rw [hf]
      simp [hval]
  · intro env s s1 t1 t2 name v hst hread hle
    have hstamp := update_readings_stamp env t1 s
    unfold read_current at hread
    rw [if_pos hst] at hread
    rcases hu : update_readings env t1 s with ⟨r, s2⟩
    rw [hu] at hread hstamp
    cases r with
    | error e => simp at hread
    | ok u =>
      simp only [Prod.mk.injEq] at hread
      obtain ⟨hval, hs⟩ := hread
      rw [hs] at hstamp hval
      have hf : hvsStale s1 t2 = false := hvsStale_eq_false hstamp.1 hle
      unfold read_current
      rw [hf]
      simp [hval]
  · intro env s now t h hle
    have hf := kpaStale_eq_false h hle
    unfold kpa_xdiff kpa_ydiff kpa_sum kpa_xout kpa_yout get_readings_cached
    rw [hf]
    simp
  · intro env s now hst hconn
    unfold get_readings_cached kpa_check_connection
    rw [hst, hconn]
    simp
  · intro env s s1 t1 t2 v hst hread hle
    unfold kpa_xdiff at hread
    rcases hg : get_readings_cached env t1 s with e | s2
    · rw [hg] at hread
      simp at hread
    · rw [hg] at hread
      simp only [Except.ok.injEq, Prod.mk.injEq] at hread
      obtain ⟨hval, hs⟩ := hread
      rw [hs] at hg hval
      unfold get_readings_cached at hg
      rw [if_pos hst] at hg
      rcases hcc : kpa_check_connection s with e | u
      · rw [hcc] at hg
        simp at hg
      · rw [hcc] at hg
        simp only [Except.ok.injEq] at hg
        have htime : s1.lastReadingTime = some t1 := by
          rw [← hg]
        have hf : kpaStale s1 t2 = false := kpaStale_eq_false htime hle
        unfold kpa_xdiff get_readings_cached
        rw [hf]
        simp [hval]

/-- Witness for C2: a read 0.25 s after the last supply-controller refresh
returns the cached voltage and current without touching the state. -/
theorem C2_witness :
    read_voltage hvsEnvSeq (1/4) hvsStateC "hv1" =
      (dictGet hvsStateC.voltages "hv1", hvsStateC) ∧
    read_current hvsEnvSeq (1/4) hvsStateC "hv1" =
      (dictGet hvsStateC.currents "hv1", hvsStateC) :=
  C2_cached_reads.2.2.1 hvsEnvSeq hvsStateC (1/4) 0 "hv1" rfl
    (by norm_num [hvsCacheInterval])

/-- C3 counterexample: a sample-count mismatch during refresh raises the
measurement fault, but the stale cache entry stays at its old value (it is not
set to NaN), and — because the timestamp is stamped at the start of the failed
measurement — a read a quarter second later silently returns the stale value. -/
theorem C3_counterexample :
    (read_voltage hvsEnvShort 1 hvsStateC "hv1").1 =
      Except.error (PyErr.deviceError "Requested and read samples mismatch!") ∧
    (read_voltage hvsEnvShort 1 hvsStateC "hv1").2.voltages = [("hv1", some 100)] ∧
    (read_voltage hvsEnvShort (5/4) (read_voltage hvsEnvShort 1 hvsStateC "hv1").2
        "hv1").1 = Except.ok (some 100) := by
  have hst : hvsStale hvsStateC 1 = true := by
    norm_num [hvsStale, hvsStateC, hvsCacheInterval]
  have hr : read_voltage hvsEnvShort 1 hvsStateC "hv1" =
      (Except.error (PyErr.deviceError "Requested and read samples mismatch!"),
        ⟨[⟨"hv1", HvsModel.ka10p⟩], ["hv1"], [("hv1", some 100)], [("hv1", some 1)],
          [("hv1", 0)], some 1, true, 1⟩) := by
    unfold read_voltage
    rw [if_pos hst]
    simp [update_readings, measure_voltage, hvsEnvShort, hvsStateC, hvsNSamples,
      mkDeviceError]
  have hst2 : hvsStale
      (⟨[⟨"hv1", HvsModel.ka10p⟩], ["hv1"], [("hv1", some 100)], [("hv1", some 1)],
        [("hv1", 0)], some 1, true, 1⟩ : HvsState) (5/4) = false := by
    norm_num [hvsStale, hvsCacheInterval]
  refine ⟨by rw [hr], by rw [hr], ?_⟩
  rw [hr]
  unfold read_voltage
  rw [hst2]
  simp [dictGet]

/-- C3 amended: when a refresh triggered by `read_voltage` or `read_current`
fails — the hardware is unreachable, or the reported sample count differs from
the requested 64 — the triggering read raises a measurement-error
`DeviceError`, but the cached voltages and currents keep their previous values
rather than being invalidated to NaN, and — since the last-reading timestamp is
updated at the start of the failed measurement — any `read_voltage` or
`read_current` within `cache_interval` afterwards returns the stale cached
value without touching the hardware. -/
theorem C3_refresh_failure (env : HvsEnv) (s : HvsState) (now : ℚ) (name : String)
    (hst : hvsStale s now = true)
    (hfail : env.measure s.acquisitions = DaqRead.devCannotBeAccessed ∨
      ∃ sr vals, env.measure s.acquisitions = DaqRead.samples sr vals ∧ sr ≠ (64:ℤ)) :
    (∃ m, (read_voltage env now s name).1 = Except.error (PyErr.deviceError m)) ∧
    (∃ m, (read_current env now s name).1 = Except.error (PyErr.deviceError m)) ∧
    (read_current env now s name).2 = (read_voltage env now s name).2 ∧
    (read_voltage env now s name).2.voltages = s.voltages ∧
    (read_voltage env now s name).2.currents = s.currents ∧
    (read_voltage env now s name).2.lastReadingTime = some now ∧
    (∀ (env2 : HvsEnv) (t2 : ℚ), t2 - now ≤ hvsCacheInterval →
      read_voltage env2 t2 (read_voltage env now s name).2 name =
        (dictGet s.voltages name, (read_voltage env now s name).2) ∧
      read_current env2 t2 (read_voltage env now s name).2 name =
        (dictGet s.currents name, (read_voltage env now s name).2)) := by
  have hupd : ∃ m, (update_readings env now s).1 =
        Except.error (PyErr.deviceError m) ∧
      (update_readings env now s).2.voltages = s.voltages ∧
      (update_readings env now s).2.currents = s.currents ∧
      (update_readings env now s).2.lastReadingTime = some now := by
    rcases hfail with hdev | ⟨sr, vals, hmeas, hsr⟩
    · refine ⟨"Connection Error: device cannot be accessed", ?_⟩
      unfold update_readings measure_voltage
      rw [hdev]
      simp [mkDeviceError]
    · refine ⟨"Requested and read samples mismatch!", ?_⟩
      unfold update_readings measure_voltage
      rw [hmeas]
      simp [hsr, hvsNSamples, mkDeviceError]
  obtain ⟨m, hm1, hmv, hmc, hmt⟩ := hupd
  rcases hu : update_readings env now s with ⟨r, s1⟩
  rw [hu] at hm1 hmv hmc hmt
  cases r with
  | ok u => simp at hm1
  | error e =>
    have hrv : read_voltage env now s name = (Except.error e, s1) := by
      unfold read_voltage
      rw [if_pos hst, hu]
    have hrc : read_current env now s name = (Except.error e, s1) := by
      unfold read_current
      rw [if_pos hst, hu]
    rw [hrv, hrc]
    simp only at hm1 hmv hmc hmt
    refine ⟨⟨m, by simpa using hm1⟩, ⟨m, by simpa using hm1⟩, rfl, hmv, hmc, hmt, ?_⟩
    intro env2 t2 hle
    have hf : hvsStale s1 t2 = false := hvsStale_eq_false hmt hle
    constructor
    · unfold read_voltage
      rw [hf]
      simp [hmv]
    · unfold read_current
      rw [hf]
      simp [hmc]

/-- Witness for C3 (amended) at the concrete short-sample stub. -/
theorem C3_witness :
    (∃ m, (read_voltage hvsEnvShort 1 hvsStateC "hv1").1 =
      Except.error (PyErr.deviceError m)) ∧
    (∃ m, (read_current hvsEnvShort 1 hvsStateC "hv1").1 =
      Except.error (PyErr.deviceError m)) ∧
    (read_current hvsEnvShort 1 hvsStateC "hv1").2 =
      (read_voltage hvsEnvShort 1 hvsStateC "hv1").2 ∧
    (read_voltage hvsEnvShort 1 hvsStateC "hv1").2.voltages = hvsStateC.voltages ∧
    (read_voltage hvsEnvShort 1 hvsStateC "hv1").2.currents = hvsStateC.currents ∧
    (read_voltage hvsEnvShort 1 hvsStateC "hv1").2.lastReadingTime = some 1 ∧
    (∀ (env2 : HvsEnv) (t2 : ℚ), t2 - 1 ≤ hvsCacheInterval →
      read_voltage env2 t2 (read_voltage hvsEnvShort 1 hvsStateC "hv1").2 "hv1" =
        (dictGet hvsStateC.voltages "hv1", (read_voltage hvsEnvShort 1 hvsStateC "hv1").2) ∧
      read_current env2 t2 (read_voltage hvsEnvShort 1 hvsStateC "hv1").2 "hv1" =
        (dictGet hvsStateC.currents "hv1", (read_voltage hvsEnvShort 1 hvsStateC "hv1").2)) :=
  C3_refresh_failure hvsEnvShort hvsStateC 1 "hv1"
    (by norm_num [hvsStale, hvsStateC, hvsCacheInterval])
    (Or.inr ⟨63, fun _ => 0, rfl, by decide⟩)

/-- C5 counterexample: after `connect` (caching a reading at time 0) and
`close`, a KPA101 cached-property read 0.05 s later silently returns the cached
value instead of failing with a device error. -/
theorem C5_counterexample :
    kpa_connect kpaEnvSeq 0 kpaInit = Except.ok kpaStateConnected ∧
    (kpa_close kpaStateConnected).connected = false ∧
    kpa_xdiff kpaEnvSeq (1/20) (kpa_close kpaStateConnected) =
      Except.ok (some 1, kpa_close kpaStateConnected) := by
  have hclose : kpa_close kpaStateConnected =
      (⟨false, some 1, some 2, some 3, some 4, some 5, some 0, 1⟩ : KpaState) := by
    simp [kpa_close, kpaStateConnected]
  have hst : kpaStale
      (⟨false, some 1, some 2, some 3, some 4, some 5, some 0, 1⟩ : KpaState)
      (1/20) = false := by
    norm_num [kpaStale, kpaCacheInterval]
  refine ⟨?_, ?_, ?_⟩
  · simp [kpa_connect, kpaEnvSeq, get_readings_cached, kpaStale, kpaInit,
      kpa_check_connection, kpaStateConnected]
  · rw [hclose]
  · rw [hclose]
    unfold kpa_xdiff get_readings_cached
    rw [hst]
    simp

/-- C5 amended: operations that reach the hardware check the connection and
raise a device error when the handle is not open — K10CR1 reads through
`check_connection`, and a KPA101 cache refresh likewise fails before connect or
after close — but a KPA101 cached-property read issued within `cache_interval`
of the last reading returns the cached value without error, even when the
connection has been closed. -/
theorem C5_connection_checks (s10 : K10State) (pos : ℤ) (env : KpaEnv)
    (s : KpaState) (now t : ℚ) :
    (s10.isOpen = false →
      ∃ m, k10_get_position pos s10 = Except.error (PyErr.deviceError m)) ∧
    (s.connected = false → kpaStale s now = true →
      ∃ m, get_readings_cached env now s = Except.error (PyErr.deviceError m)) ∧
    (s.lastReadingTime = some t → now - t ≤ kpaCacheInterval →
      kpa_xdiff env now s = Except.ok (s.xdiff, s)) := by
  refine ⟨?_, ?_, ?_⟩
  · intro hopen
    refine ⟨"Thorlabs Kinesis: Connection to device with serial number not open", ?_⟩
    unfold k10_get_position k10_check_connection
    rw [hopen]
    simp [mkDeviceError]
  · intro hconn hst
    refine ⟨"Thorlabs KPA101: Connection to device with serial number not open", ?_⟩
    unfold get_readings_cached kpa_check_connection
    rw [hst, hconn]
    simp [mkDeviceError]
  · intro ht hle
    have hf := kpaStale_eq_false ht hle
    unfold kpa_xdiff get_readings_cached
    rw [hf]
    simp

/-- Witness for C5 (amended): a closed K10CR1 handle fails a position read, a
closed KPA101 with a stale cache fails a refresh, and a closed KPA101 with a
fresh cache silently serves the cached reading. -/
theorem C5_witness :
    (∃ m, k10_get_position 0 ⟨false⟩ = Except.error (PyErr.deviceError m)) ∧
    (∃ m, get_readings_cached kpaEnvSeq 1 (kpa_close kpaStateConnected) =
      Except.error (PyErr.deviceError m)) ∧
    kpa_xdiff kpaEnvSeq (1/20) (kpa_close kpaStateConnected) =
      Except.ok ((kpa_close kpaStateConnected).xdiff, kpa_close kpaStateConnected) :=
  ⟨(C5_connection_checks ⟨false⟩ 0 kpaEnvSeq (kpa_close kpaStateConnected) 1 0).1 rfl,
   (C5_connection_checks ⟨false⟩ 0 kpaEnvSeq (kpa_close kpaStateConnected) 1 0).2.1
     (by simp [kpa_close, kpaStateConnected])
     (by norm_num [kpaStale, kpa_close, kpaStateConnected, kpaCacheInterval]),
   (C5_connection_checks ⟨false⟩ 0 kpaEnvSeq (kpa_close kpaStateConnected) (1/20) 0).2.2
     (by simp [kpa_close, kpaStateConnected])
     (by norm_num [kpaCacheInterval])⟩

/-- Unfolding equation of `_change_key_in_place` on a cons cell. -/
theorem change_key_cons {α : Type} (key newKey a : String) (b : α)
    (rest : List (String × α)) :
    change_key_in_place key newKey ((a, b) :: rest) =
      (if a = key then (newKey, b) else (a, b)) :: change_key_in_place key newKey rest :=
  rfl

/-- After the in-place rename, the new key looks up the renamed channel's old
value, provided the new key was not already present. -/
theorem lookup_change_new {α : Type} (key newKey : String) (d : List (String × α))
    (hnew : d.lookup newKey = none) :
    (change_key_in_place key newKey d).lookup newKey = d.lookup key := by
  induction d with
  | nil => rfl
  | cons p rest ih =>
    obtain ⟨a, b⟩ := p
    have hna : ¬ newKey = a := by
      intro hcontra
      subst hcontra
      simp [List.lookup_cons] at hnew
    have hrest : rest.lookup newKey = none := by
      rw [List.lookup_cons, beq_false_of_ne hna] at hnew
      exact hnew
    rw [change_key_cons]
    by_cases hak : a = key
    · subst hak
      rw [if_pos rfl, List.lookup_cons, List.lookup_cons]
      simp
    · rw [if_neg hak, List.lookup_cons, List.lookup_cons, beq_false_of_ne hna,
        beq_false_of_ne (fun hcontra => hak hcontra.symm)]
      exact ih hrest

/-- The in-place rename leaves every key other than the renamed and new keys
looking up its old value. -/
theorem lookup_change_other {α : Type} (key newKey k : String) (d : List (String × α))
    (hk1 : k ≠ key) (hk2 : k ≠ newKey) :
    (change_key_in_place key newKey d).lookup k = d.lookup k := by
  induction d with
  | nil => rfl
  | cons p rest ih =>
    obtain ⟨a, b⟩ := p
    rw [change_key_cons]
    by_cases hak : a = key
    · rw [if_pos hak, List.lookup_cons, List.lookup_cons, beq_false_of_ne hk2,
        beq_false_of_ne (fun hcontra => hk1 (hcontra.trans hak))]
      exact ih
    · rw [if_neg hak, List.lookup_cons, List.lookup_cons]
      cases hbeq : (k == a) with
      | true => rfl
      | false => exact ih

/-- The in-place rename keeps the values, in order. -/
theorem change_key_values {α : Type} (key newKey : String) (d : List (String × α)) :
    (change_key_in_place key newKey d).map Prod.snd = d.map Prod.snd := by
  simp only [change_key_in_place, List.map_map]
  congr 1
  funext p
  by_cases h : p.1 = key <;> simp [Function.comp, h]

/-- C9: `set_name` raises a `DeviceError` when the new name is already in use;
otherwise the renamed channel's cached voltage, cached current, and pending
write voltage keep their values under the new name, every other channel's
entries are untouched, and the order of values in the voltage, current, and
write-voltage maps (hence the association with physical DAQ channels) is
unchanged. -/
theorem C9_set_name_frame (s : HvsState) (oldName newName : String) :
    (newName ∈ s.names →
      set_name s oldName newName = Except.error (PyErr.deviceError
        (newName ++ " is an invalid name, cannot duplicate names!"))) ∧
    (oldName ∈ s.names → newName ∉ s.names →
      s.voltages.lookup newName = none →
      s.currents.lookup newName = none →
      s.writeVoltages.lookup newName = none →
      ∃ s1, set_name s oldName newName = Except.ok s1 ∧
      s1.voltages.lookup newName = s.voltages.lookup oldName ∧
      s1.currents.lookup newName = s.currents.lookup oldName ∧
      s1.writeVoltages.lookup newName = s.writeVoltages.lookup oldName ∧
      (∀ k, k ≠ oldName → k ≠ newName →
        s1.voltages.lookup k = s.voltages.lookup k ∧
        s1.currents.lookup k = s.currents.lookup k ∧
        s1.writeVoltages.lookup k = s.writeVoltages.lookup k) ∧
      s1.voltages.map Prod.snd = s.voltages.map Prod.snd ∧
      s1.currents.map Prod.snd = s.currents.map Prod.snd ∧
      s1.writeVoltages.map Prod.snd = s.writeVoltages.map Prod.snd) := by
  constructor
  · intro hdup
    unfold set_name
    rw [if_pos hdup]
    simp [mkDeviceError]
  · intro hold hnot hv hc hw
    have hidx : ∃ i, s.names.indexOf? oldName = some i := by
      cases hi : s.names.indexOf? oldName with
      | some i => exact ⟨i, rfl⟩
      | none =>
        have hnone := List.indexOf?_eq_none_iff.mp hi oldName hold
        simp at hnone
    obtain ⟨i, hi⟩ := hidx
    have hset : set_name s oldName newName = Except.ok
        { s with
          channels := s.channels.map (fun ch =>
            if ch.chanName = oldName then {ch with chanName := newName} else ch),
          names := s.names.set i newName,
          voltages := change_key_in_place oldName newName s.voltages,
          writeVoltages := change_key_in_place oldName newName s.writeVoltages,
          currents := if (s.currents.lookup oldName).isSome then
            change_key_in_place oldName newName s.currents else s.currents } := by
      unfold set_name
      rw [if_neg hnot, hi]
    refine ⟨_, hset, ?_, ?_, ?_, ?_, ?_, ?_, ?_⟩
    · exact lookup_change_new _ _ _ hv
    · by_cases hcs : (s.currents.lookup oldName).isSome
      · simp only [if_pos hcs]
        exact lookup_change_new _ _ _ hc
      · simp only [if_neg hcs]
        rw [hc, Option.not_isSome_iff_eq_none.mp hcs]
    · exact lookup_change_new _ _ _ hw
    · intro k hk1 hk2
      refine ⟨lookup_change_other _ _ _ _ hk1 hk2, ?_,
        lookup_change_other _ _ _ _ hk1 hk2⟩
      by_cases hcs : (s.currents.lookup oldName).isSome
      · simp only [if_pos hcs]
        exact lookup_change_other _ _ _ _ hk1 hk2
      · simp only [if_neg hcs]
    · exact change_key_values _ _ _
    · by_cases hcs : (s.currents.lookup oldName).isSome
      · simp only [if_pos hcs]
        exact change_key_values _ _ _
      · simp only [if_neg hcs]
    · exact change_key_values _ _ _

/-- Witness for C9: renaming to a name already in use on the two-channel state
raises the device error, and renaming the only channel of the one-channel
state preserves its entries. -/
theorem C9_witness :
    set_name hvsStateC2 "hv1" "hv2" = Except.error (PyErr.deviceError
      ("hv2" ++ " is an invalid name, cannot duplicate names!")) ∧
    ∃ s1, set_name hvsStateC "hv1" "hv2" = Except.ok s1 ∧
      s1.voltages.lookup "hv2" = hvsStateC.voltages.lookup "hv1" ∧
      s1.currents.lookup "hv2" = hvsStateC.currents.lookup "hv1" ∧
      s1.writeVoltages.lookup "hv2" = hvsStateC.writeVoltages.lookup "hv1" ∧
      (∀ k, k ≠ "hv1" → k ≠ "hv2" →
        s1.voltages.lookup k = hvsStateC.voltages.lookup k ∧
        s1.currents.lookup k = hvsStateC.currents.lookup k ∧
        s1.writeVoltages.lookup k = hvsStateC.writeVoltages.lookup k) ∧
      s1.voltages.map Prod.snd = hvsStateC.voltages.map Prod.snd ∧
      s1.currents.map Prod.snd = hvsStateC.currents.map Prod.snd ∧
      s1.writeVoltages.map Prod.snd = hvsStateC.writeVoltages.map Prod.snd :=
  ⟨(C9_set_name_frame hvsStateC2 "hv1" "hv2").1 (by decide),
   (C9_set_name_frame hvsStateC "hv1" "hv2").2 (by decide) (by decide) (by decide)
     (by decide) (by decide)⟩

/-- C10: for a valid axis and a voltage strictly below 0 V, `set_voltage`
raises a device error before anything is written to the transport; for an
unknown axis both `set_voltage` and `read_voltage` raise a device error with
nothing transmitted. -/
theorem C10_mdt_guards (env : MdtEnv) (deviceName axis : String) (voltage : ℚ) :
    (axis ∈ ["x", "y", "z"] → voltage < 0 →
      mdt_set_voltage env deviceName axis voltage =
        (Except.error (PyErr.deviceError
          (deviceName ++ ": Voltage must not be below 0.00 V")), [])) ∧
    (axis ∉ ["x", "y", "z"] →
      mdt_set_voltage env deviceName axis voltage =
        (Except.error (PyErr.deviceError
          (deviceName ++ ": Unknown axis \x27" ++ axis ++ "\x27")), []) ∧
      mdt_read_voltage env deviceName axis =
        (Except.error (PyErr.deviceError
          (deviceName ++ ": Unknown axis \x27" ++ axis ++ "\x27")), [])) := by
  constructor
  · intro hax hneg
    unfold mdt_set_voltage mdt_check_axis
    rw [if_neg (not_not_intro hax)]
    simp only []
    rw [if_pos hneg]
    simp [mkDeviceError]
  · intro hax
    constructor
    · unfold mdt_set_voltage mdt_check_axis
      rw [if_pos hax]
      simp [mkDeviceError]
    · unfold mdt_read_voltage mdt_check_axis
      rw [if_pos hax]
      simp [mkDeviceError]

/-- Witness for C10: a negative x-axis voltage and an unknown axis `w`, both
with an otherwise fully functional transport stub. -/
theorem C10_witness :
    mdt_set_voltage ⟨fun frame => frame.length, [], ">"⟩ "Thorlabs MDT693B" "x" (-5) =
      (Except.error (PyErr.deviceError
        ("Thorlabs MDT693B" ++ ": Voltage must not be below 0.00 V")), []) ∧
    mdt_set_voltage ⟨fun frame => frame.length, [], ">"⟩ "Thorlabs MDT693B" "w" (-5) =
      (Except.error (PyErr.deviceError
        ("Thorlabs MDT693B" ++ ": Unknown axis \x27" ++ "w" ++ "\x27")), []) ∧
    mdt_read_voltage ⟨fun frame => frame.length, [], ">"⟩ "Thorlabs MDT693B" "w" =
      (Except.error (PyErr.deviceError
        ("Thorlabs MDT693B" ++ ": Unknown axis \x27" ++ "w" ++ "\x27")), []) :=
  ⟨(C10_mdt_guards ⟨fun frame => frame.length, [], ">"⟩ "Thorlabs MDT693B" "x" (-5)).1
      (by decide) (by norm_num),
   (C10_mdt_guards ⟨fun frame => frame.length, [], ">"⟩ "Thorlabs MDT693B" "w" (-5)).2
      (by decide) |>.1,
   (C10_mdt_guards ⟨fun frame => frame.length, [], ">"⟩ "Thorlabs MDT693B" "w" (-5)).2
      (by decide) |>.2⟩

end AmoDevices
